import Mathlib

/-!
Verification of the library-management service (booking lifecycle and
optimistic-concurrency book updates).

The Go source is shallowly embedded as follows:

* Timestamps (`time.Time`) are integers counting days; `AddDate(0, 0, d)`
  becomes `addDays t d = t + d`, and `time.Time.IsZero` becomes `t = 0`.
  All clock reads (`time.Now().UTC()`) inside one service operation are
  modelled as the same instant, passed in as a `now` parameter.
* A Postgres table is a `List` of row records; `QueryRow ... Scan` over a
  `WHERE` clause is `List.find?`, an `UPDATE ... WHERE` is `List.map` over a
  conditional rewrite of the matching rows, `RowsAffected` is `List.countP`,
  and `INSERT` appends.  DB-generated identifiers (`uuid.New`,
  `gen_random_uuid`) are a `freshID` parameter.
* Go errors are their message strings (`errors.New("...")`); a fallible call
  returns `Except String α`.
* The services (`internal/service`) are written against the repository
  interfaces (`repo.BookingRepo`, `repo.BookRepo`, `repo.UserRepo`); they are
  embedded generically over records of repository operations on a state type
  `σ`, then instantiated with the Postgres repository model.
-/

/-- Timestamps, in days (see the header: `AddDate(0,0,d)` is `+ d`). -/
abbrev Time := Int

/-- `time.Time.AddDate(0, 0, d)`: advance a timestamp by `d` days. -/
def addDays (t : Time) (d : Int) : Time := t + d

/-- `internal/model/user.go` `User` (the fields the booking engine reads). -/
structure User where
  id : String
  username : String
  email : String
  role : String
deriving Repr, DecidableEq

/-- The `books` table row.  Per the DDL in the sources, `title` and
`author` are `TEXT NOT NULL` (plain `String` here — the store never holds
NULL in them), while `published_year` and `isbn` are nullable
(`Option`-typed); the repo's UPDATE can therefore store NULL only in the
latter two, and a NULL sent to `title`/`author` is a constraint violation
(see `booksConditionalWrite`). -/
structure Book where
  id : String
  title : String
  author : String
  publishedYear : Option Int
  isbn : Option String
  createdAt : Time
  updatedAt : Time
  version : Int
deriving Repr, DecidableEq

/-- `internal/model/booking.go` `Booking` (persisted fields). -/
structure Booking where
  id : String
  userID : String
  bookID : String
  borrowedAt : Time
  dueDate : Time
  returnedAt : Option Time
  status : String
  createdAt : Time
  updatedAt : Time
deriving Repr, DecidableEq

/-- `internal/model/booking.go` `BorrowBookRequest`. -/
structure BorrowBookRequest where
  bookID : String
  borrowDays : Int
deriving Repr, DecidableEq

/-- The dynamic `map[string]interface{}` passed to `BookingRepo.Update`:
only the keys the booking service ever sends (`returned_at`, `status`);
an absent key is `none`. -/
structure BookingUpdates where
  returned_at : Option Time := none
  status : Option String := none
deriving Repr, DecidableEq

/-- The dynamic `map[string]interface{}` passed to `BookRepo.Update`:
the four keys read by `pgBookRepo.Update` (`updates["title"]`,
`updates["author"]`, `updates["published_year"]`, `updates["isbn"]`);
an absent key is `none`, which the Go code passes to SQL as `nil`/NULL. -/
structure BookUpdates where
  title : Option String := none
  author : Option String := none
  published_year : Option Int := none
  isbn : Option String := none
deriving Repr, DecidableEq

/-- Effect of `pgBookingRepo.Update`'s SET clause on one row: the supplied
keys overwrite their columns and the repo always adds
`updates["updated_at"] = time.Now().UTC()`. -/
def applyBookingUpdates (b : Booking) (u : BookingUpdates) (now : Time) : Booking :=
  { b with
    returnedAt := match u.returned_at with | some t => some t | none => b.returnedAt
    status := match u.status with | some s => s | none => b.status
    updatedAt := now }

/-! ### Booking repository (`internal/repo/bookings_pg.go`) -/

/-- `pgBookingRepo.Create`: assigns a fresh id when `b.ID == ""`, fills zero
timestamps with `now`, and inserts the row (`INSERT ... RETURNING`). -/
def pgBookingRepoCreate (db : List Booking) (b : Booking) (now : Time) (freshID : String) :
    Booking × List Booking :=
  let b1 := if b.id = "" then { b with id := freshID } else b
  let b2 := if b1.createdAt = 0 then { b1 with createdAt := now } else b1
  let b3 := if b2.updatedAt = 0 then { b2 with updatedAt := now } else b2
  (b3, db ++ [b3])

/-- `pgBookingRepo.GetByID`: `SELECT ... WHERE id = $1`; any failure is
reported as `"booking not found"`. -/
def pgBookingRepoGetByID (db : List Booking) (id : String) : Except String Booking :=
  match db.find? (fun b => b.id == id) with
  | none => .error "booking not found"
  | some b => .ok b

/-- `pgBookingRepo.GetActive`:
`SELECT ... WHERE user_id = $1 AND book_id = $2 AND status = 'ACTIVE'`;
any failure is reported as `"no active booking found"`. -/
def pgBookingRepoGetActive (db : List Booking) (userID bookID : String) :
    Except String Booking :=
  match db.find? (fun b => b.userID == userID && b.bookID == bookID && b.status == "ACTIVE") with
  | none => .error "no active booking found"
  | some b => .ok b

/-- `pgBookingRepo.Update`: dynamic `UPDATE bookings SET ... WHERE id = $n
RETURNING ...`; scanning the RETURNING row fails when no row matched. -/
def pgBookingRepoUpdate (db : List Booking) (id : String) (u : BookingUpdates) (now : Time) :
    Except String (Booking × List Booking) :=
  let db2 := db.map (fun b => if b.id == id then applyBookingUpdates b u now else b)
  match db2.find? (fun b => b.id == id) with
  | none => .error "no rows in result set"
  | some b => .ok (b, db2)

/-- One row's transition under `pgBookingRepo.MarkOverdue`'s
`UPDATE ... WHERE status = 'ACTIVE' AND due_date < NOW()`. -/
def markOverdueStep (now : Time) (b : Booking) : Booking :=
  if b.status == "ACTIVE" && decide (b.dueDate < now) then
    { b with status := "OVERDUE", updatedAt := now }
  else b

/-- `pgBookingRepo.MarkOverdue`: the bulk overdue transition. -/
def pgBookingRepoMarkOverdue (db : List Booking) (now : Time) : List Booking :=
  db.map (markOverdueStep now)

/-! ### User repository (`internal/repo` user repo, `GetByID` only) -/

/-- `pgUserRepo.GetByID`: `SELECT ... WHERE id = $1`; any failure is
reported as `"user not found"`. -/
def pgUserRepoGetByID (db : List User) (id : String) : Except String User :=
  match db.find? (fun u => u.id == id) with
  | none => .error "user not found"
  | some u => .ok u

/-! ### Book repository (`internal/repo/books_pg.go`) -/

/-- `pgBookRepo.GetByID`: `SELECT ... WHERE id=$1`, returning the raw scan
error (pgx's `"no rows in result set"`) when the row is absent. -/
def pgBookRepoGetByID (db : List Book) (id : String) : Except String Book :=
  match db.find? (fun b => b.id == id) with
  | none => .error "no rows in result set"
  | some b => .ok b

/-- `pgBookRepo.Create`: `INSERT ... VALUES (..., now, now, 1) RETURNING
id, created_at, updated_at, version`; the DB-generated id is `freshID`. -/
def pgBookRepoCreate (db : List Book) (b : Book) (now : Time) (freshID : String) :
    Book × List Book :=
  let nb := { b with id := freshID, createdAt := now, updatedAt := now, version := 1 }
  (nb, db ++ [nb])

/-- The storage collaborator's conditional-update primitive: the single
statement `UPDATE books SET title=$1, author=$2, published_year=$3,
isbn=$4, updated_at=$5, version=$6 WHERE id=$7 AND version=$8`, returning
(RowsAffected, resulting table).  The SET values come from the `updates`
map, `nil`/NULL for an absent key.  `title` and `author` are `TEXT NOT
NULL` in the DDL, so a NULL in either is a constraint violation: the
statement fails — `Exec` returns an error (which the Go caller discards)
and a zero `CommandTag`, i.e. `RowsAffected() == 0` — and no row changes. -/
def booksConditionalWrite (dbWrite : List Book) (id : String) (updates : BookUpdates)
    (now : Time) (expectedVersion newVersion : Int) : Nat × List Book :=
  match updates.title, updates.author with
  | some t, some a =>
    (dbWrite.countP (fun b => b.id == id && b.version == expectedVersion),
     dbWrite.map (fun b =>
       if b.id == id && b.version == expectedVersion then
         { b with title := t, author := a,
                  publishedYear := updates.published_year, isbn := updates.isbn,
                  updatedAt := now, version := newVersion }
       else b))
  | _, _ => (0, dbWrite)

/-- `pgBookRepo.Update`, the two-phase optimistic-locking protocol.
`dbRead` is the store as seen by the Step-1 read (`SELECT id, version FROM
books WHERE id = $1`) and `dbWrite` the store at the Step-3 conditional
write; a concurrent writer in the window between the two statements is
expressed by `dbRead ≠ dbWrite`, and a sequential call has
`dbRead = dbWrite`.  The Go code ignores `Exec`'s error and tests only
`cmdTag.RowsAffected() == 0`, reporting the conflict error; on success the
updated row is re-read. -/
def pgBookRepoUpdate (dbRead dbWrite : List Book) (id : String) (updates : BookUpdates)
    (now : Time) : Except String (Book × List Book) :=
  match dbRead.find? (fun b => b.id == id) with
  | none => .error "book not found"
  | some current =>
    let newVersion := current.version + 1
    let w := booksConditionalWrite dbWrite id updates now current.version newVersion
    if w.1 = 0 then
      .error "conflict: book was modified by another request"
    else
      match w.2.find? (fun b => b.id == id) with
      | none => .error "no rows in result set"
      | some bk => .ok (bk, w.2)

/-! ### Booking service (`bookingService`, service layer), generic over the
repository interfaces it is programmed against -/

/-- The slice of `repo.BookingRepo` the booking service calls, over an
abstract store state `σ` (the Go service works for any implementation of
the interface; mocks in the test files instantiate it the same way). -/
structure BookingRepoFns (σ : Type) where
  Create : σ → Booking → Time → String → Except String (Booking × σ)
  GetByID : σ → String → Except String Booking
  GetActive : σ → String → String → Except String Booking
  Update : σ → String → BookingUpdates → Time → Except String (Booking × σ)
  MarkOverdue : σ → Time → Except String σ

/-- The slice of `repo.UserRepo` the booking service calls. -/
structure UserRepoFns (σ : Type) where
  GetByID : σ → String → Except String User

/-- The slice of `repo.BookRepo` the booking service calls. -/
structure BookRepoFns (σ : Type) where
  GetByID : σ → String → Except String Book

/-- `service.bookingService`: the three injected repositories. -/
structure BookingServiceS (σ : Type) where
  bookingRepo : BookingRepoFns σ
  bookRepo : BookRepoFns σ
  userRepo : UserRepoFns σ

/-- The `model.Booking` literal built inside `bookingService.Borrow`
(unset Go struct fields are zero values: empty id, nil returned-at, zero
created/updated timestamps). -/
def borrowBooking (userID : String) (req : BorrowBookRequest) (now : Time) : Booking :=
  { id := "", userID := userID, bookID := req.bookID,
    borrowedAt := now, dueDate := addDays now req.borrowDays,
    returnedAt := none, status := "ACTIVE", createdAt := 0, updatedAt := 0 }

/-- `bookingService.Borrow`.  Checks, in source order: user lookup, book
lookup, active-booking lookup, borrow-days range; then inserts.  The Go
line `active, _ := s.bookingRepo.GetActive(ctx, userID, req.BookID)`
discards the lookup's error and only tests `active != nil`, which is the
`.error _` branch below falling through to the remaining checks. -/
def BookingServiceS.Borrow {σ : Type} (s : BookingServiceS σ) (db : σ) (now : Time)
    (freshID userID : String) (req : BorrowBookRequest) : Except String Booking × σ :=
  match s.userRepo.GetByID db userID with
  | .error _ => (.error "user not found", db)
  | .ok _ =>
    match s.bookRepo.GetByID db req.bookID with
    | .error _ => (.error "book not found", db)
    | .ok _ =>
      match s.bookingRepo.GetActive db userID req.bookID with
      | .ok _ => (.error "you already have an active booking for this book", db)
      | .error _ =>
        if req.borrowDays < 1 || req.borrowDays > 30 then
          (.error "borrow days must be between 1 and 30", db)
        else
          match s.bookingRepo.Create db (borrowBooking userID req now) now freshID with
          | .error e => (.error e, db)
          | .ok (b, db2) => (.ok b, db2)

/-- `bookingService.Return`: look the booking up, reject when already
RETURNED, else persist `returned_at = now, status = "RETURNED"`. -/
def BookingServiceS.Return {σ : Type} (s : BookingServiceS σ) (db : σ) (now : Time)
    (bookingID : String) : Except String Booking × σ :=
  match s.bookingRepo.GetByID db bookingID with
  | .error _ => (.error "booking not found", db)
  | .ok booking =>
    if booking.status == "RETURNED" then
      (.error "book already returned", db)
    else
      match s.bookingRepo.Update db bookingID
          { returned_at := some now, status := some "RETURNED" } now with
      | .error e => (.error e, db)
      | .ok (b, db2) => (.ok b, db2)

/-- `bookingService.UpdateOverdue`: pass-through to `MarkOverdue`. -/
def BookingServiceS.UpdateOverdue {σ : Type} (s : BookingServiceS σ) (db : σ) (now : Time) :
    Except String σ :=
  s.bookingRepo.MarkOverdue db now

/-! ### The Postgres-backed instantiation (as wired in `cmd/library-api`) -/

/-- The shared relational store the three Postgres repositories operate on. -/
structure PgDB where
  users : List User
  books : List Book
  bookings : List Booking
deriving Repr, DecidableEq

/-- `repo.NewBookingRepo`'s implementation over `PgDB`. -/
def pgBookingRepo : BookingRepoFns PgDB where
  Create := fun db b now freshID =>
    let r := pgBookingRepoCreate db.bookings b now freshID
    .ok (r.1, { db with bookings := r.2 })
  GetByID := fun db id => pgBookingRepoGetByID db.bookings id
  GetActive := fun db userID bookID => pgBookingRepoGetActive db.bookings userID bookID
  Update := fun db id u now =>
    match pgBookingRepoUpdate db.bookings id u now with
    | .error e => .error e
    | .ok (b, l) => .ok (b, { db with bookings := l })
  MarkOverdue := fun db now => .ok { db with bookings := pgBookingRepoMarkOverdue db.bookings now }

/-- `repo.NewUserRepo`'s implementation over `PgDB` (`GetByID` slice). -/
def pgUserRepoFns : UserRepoFns PgDB where
  GetByID := fun db id => pgUserRepoGetByID db.users id

/-- `repo.NewBookRepo`'s implementation over `PgDB` (`GetByID` slice). -/
def pgBookRepoFns : BookRepoFns PgDB where
  GetByID := fun db id => pgBookRepoGetByID db.books id

/-- `service.NewBookingService(bookingRepo, bookRepo, userRepo)` wired with
the Postgres repositories. -/
def libraryBookingService : BookingServiceS PgDB :=
  { bookingRepo := pgBookingRepo, bookRepo := pgBookRepoFns, userRepo := pgUserRepoFns }

/-! ### Book catalog service (`internal/service/books.go`) -/

/-- `service.ErrConflict = errors.New("conflict")`, as its message string. -/
def ErrConflictMsg : String := "conflict"

/-- `bookServiceImpl.Update` (`internal/service/books.go`): forwards to the
repository's Update and translates the error whose message is exactly
`"conflict: stale version or not found"` into `ErrConflict`, returning any
other repository error unchanged.  Composed here with the repository's
two-phase update from `books_pg.go` (the revision the service is wired
against in the sources; note the two files disagree on the Update
signature, so the composition follows the error-translation logic, which is
what the claims are about). -/
def bookServiceImplUpdate (dbRead dbWrite : List Book) (id : String) (updates : BookUpdates)
    (now : Time) : Except String (Book × List Book) :=
  match pgBookRepoUpdate dbRead dbWrite id updates now with
  | .error e => if e == "conflict: stale version or not found" then .error ErrConflictMsg
                else .error e
  | .ok r => .ok r

/-! ### Error taxonomy -/

/-- Modelled from the spec: the §7 error taxonomy (`NotFound`, `Conflict`,
`AlreadyReturned`, `InvalidArgument`, `Internal`); the source carries error
kinds only as message strings, so the kinds themselves are not code. -/
inductive ErrKind where
  | NotFound
  | Conflict
  | AlreadyReturned
  | InvalidArgument
  | Internal
deriving Repr, DecidableEq

/-- Modelled from the spec: classification of the booking service's error
message strings into the §7 taxonomy (`NotFound` for a missing user, book
or booking; `Conflict` for a duplicate active booking; `AlreadyReturned`
for a second return; `InvalidArgument` for out-of-range borrow days). -/
def errKind (msg : String) : ErrKind :=
  if msg = "user not found" ∨ msg = "book not found" ∨ msg = "booking not found" then
    .NotFound
  else if msg = "you already have an active booking for this book" then
    .Conflict
  else if msg = "book already returned" then
    .AlreadyReturned
  else if msg = "borrow days must be between 1 and 30" then
    .InvalidArgument
  else
    .Internal

/-! ## Helper lemmas -/

/-- `find?` commutes with mapping a function that does not change the
predicate's verdict (used for SQL UPDATEs, which rewrite rows without
touching the key column the WHERE clause selects on). -/
theorem find?_map_pres {α : Type} (f : α → α) (p : α → Bool) (hp : ∀ a, p (f a) = p a)
    (l : List α) : (l.map f).find? p = (l.find? p).map f := by
  rw [List.find?_map]
  have h : p ∘ f = p := funext hp
  rw [h]

/-- The booking produced by a successful `Borrow` (fresh id from the store,
timestamps filled in by `pgBookingRepo.Create`). -/
def createdBorrowBooking (uid : String) (req : BorrowBookRequest) (now : Time) (fid : String) :
    Booking :=
  { id := fid, userID := uid, bookID := req.bookID, borrowedAt := now,
    dueDate := addDays now req.borrowDays, returnedAt := none, status := "ACTIVE",
    createdAt := now, updatedAt := now }

/-- Complete case analysis of `bookingService.Borrow` over the Postgres
store: the four checks in source order, then the insert. -/
theorem borrow_characterization (db : PgDB) (now : Time) (fid uid : String)
    (req : BorrowBookRequest) :
    libraryBookingService.Borrow db now fid uid req =
      match db.users.find? (fun u => u.id == uid) with
      | none => (.error "user not found", db)
      | some _ =>
        match db.books.find? (fun b => b.id == req.bookID) with
        | none => (.error "book not found", db)
        | some _ =>
          match db.bookings.find?
              (fun b => b.userID == uid && b.bookID == req.bookID && b.status == "ACTIVE") with
          | some _ => (.error "you already have an active booking for this book", db)
          | none =>
            if req.borrowDays < 1 || req.borrowDays > 30 then
              (.error "borrow days must be between 1 and 30", db)
            else
              (.ok (createdBorrowBooking uid req now fid),
               { db with bookings := db.bookings ++ [createdBorrowBooking uid req now fid] }) := by
  simp only [BookingServiceS.Borrow, libraryBookingService, pgUserRepoFns, pgUserRepoGetByID,
    pgBookRepoFns, pgBookRepoGetByID, pgBookingRepo, pgBookingRepoGetActive,
    pgBookingRepoCreate, borrowBooking, createdBorrowBooking]
  cases db.users.find? (fun u => u.id == uid) with
  | none => rfl
  | some u =>
    cases db.books.find? (fun b => b.id == req.bookID) with
    | none => rfl
    | some bk =>
      cases db.bookings.find?
          (fun b => b.userID == uid && b.bookID == req.bookID && b.status == "ACTIVE") with
      | some a => rfl
      | none =>
        by_cases hd : (decide (req.borrowDays < 1) || decide (req.borrowDays > 30)) = true
        · simp [hd]
        · simp only [Bool.not_eq_true] at hd
          simp [hd]

/-! ## Claim C1 -/

/-- Claim C1: for every userID referencing an existing user, bookID
referencing an existing book, and borrowDays with 1 ≤ borrowDays ≤ 30, when
no ACTIVE booking exists for the pair, Borrow succeeds and returns a newly
created, persisted booking with status "ACTIVE", borrowed_at = now and
due_date = borrowed_at + borrowDays days. -/
theorem borrow_success_spec (db : PgDB) (now : Time) (fid uid : String)
    (req : BorrowBookRequest)
    (hu : (db.users.find? (fun u => u.id == uid)).isSome = true)
    (hb : (db.books.find? (fun b => b.id == req.bookID)).isSome = true)
    (hact : db.bookings.find?
        (fun b => b.userID == uid && b.bookID == req.bookID && b.status == "ACTIVE") = none)
    (hd1 : 1 ≤ req.borrowDays) (hd2 : req.borrowDays ≤ 30) :
    libraryBookingService.Borrow db now fid uid req =
      (.ok { id := fid, userID := uid, bookID := req.bookID, borrowedAt := now,
             dueDate := addDays now req.borrowDays, returnedAt := none, status := "ACTIVE",
             createdAt := now, updatedAt := now },
       { db with bookings := db.bookings ++
           [{ id := fid, userID := uid, bookID := req.bookID, borrowedAt := now,
              dueDate := addDays now req.borrowDays, returnedAt := none, status := "ACTIVE",
              createdAt := now, updatedAt := now }] }) := by
  obtain ⟨u, hu'⟩ := Option.isSome_iff_exists.mp hu
  obtain ⟨bk, hb'⟩ := Option.isSome_iff_exists.mp hb
  have hd : (decide (req.borrowDays < 1) || decide (req.borrowDays > 30)) = false := by
    simp only [Bool.or_eq_false_iff, decide_eq_false_iff_not, not_lt, gt_iff_lt]
    exact ⟨hd1, hd2⟩
  rw [borrow_characterization, hu', hb', hact]
  simp [hd, createdBorrowBooking]

/-- Witness for C1: a concrete successful borrow. -/
theorem borrow_success_spec_witness :
    libraryBookingService.Borrow
        { users := [{ id := "u1", username := "alice", email := "a@e.com", role := "user" }],
          books := [{ id := "b1", title := "T", author := "A",
                      publishedYear := some 2000, isbn := some "I",
                      createdAt := 1, updatedAt := 1, version := 1 }],
          bookings := [] } 5 "bid1" "u1" { bookID := "b1", borrowDays := 14 } =
      (.ok { id := "bid1", userID := "u1", bookID := "b1", borrowedAt := 5,
             dueDate := addDays 5 14, returnedAt := none, status := "ACTIVE",
             createdAt := 5, updatedAt := 5 },
       { users := [{ id := "u1", username := "alice", email := "a@e.com", role := "user" }],
         books := [{ id := "b1", title := "T", author := "A",
                     publishedYear := some 2000, isbn := some "I",
                     createdAt := 1, updatedAt := 1, version := 1 }],
         bookings := [{ id := "bid1", userID := "u1", bookID := "b1", borrowedAt := 5,
                        dueDate := addDays 5 14, returnedAt := none, status := "ACTIVE",
                        createdAt := 5, updatedAt := 5 }] }) := by
  have h := borrow_success_spec
    { users := [{ id := "u1", username := "alice", email := "a@e.com", role := "user" }],
      books := [{ id := "b1", title := "T", author := "A",
                  publishedYear := some 2000, isbn := some "I",
                  createdAt := 1, updatedAt := 1, version := 1 }],
      bookings := [] } 5 "bid1" "u1" { bookID := "b1", borrowDays := 14 }
    (by decide) (by decide) (by decide) (by decide) (by decide)
  simpa using h

/-! ## Claim C7 -/

/-- Claim C7: Borrow checks its preconditions in source order (user exists,
book exists, no active booking, borrowDays in range) with failure kinds
NotFound / NotFound / Conflict / InvalidArgument; in particular, on an
input where an active booking exists AND borrowDays is out of range, the
duplicate-borrow Conflict is reported (third conjunct: no constraint on
borrowDays), not InvalidArgument. -/
theorem borrow_error_order_and_kinds (db : PgDB) (now : Time) (fid uid : String)
    (req : BorrowBookRequest) :
    (db.users.find? (fun u => u.id == uid) = none →
      (libraryBookingService.Borrow db now fid uid req).1 = .error "user not found" ∧
      errKind "user not found" = .NotFound) ∧
    ((db.users.find? (fun u => u.id == uid)).isSome = true →
     db.books.find? (fun b => b.id == req.bookID) = none →
      (libraryBookingService.Borrow db now fid uid req).1 = .error "book not found" ∧
      errKind "book not found" = .NotFound) ∧
    ((db.users.find? (fun u => u.id == uid)).isSome = true →
     (db.books.find? (fun b => b.id == req.bookID)).isSome = true →
     (db.bookings.find?
        (fun b => b.userID == uid && b.bookID == req.bookID && b.status == "ACTIVE")).isSome
          = true →
      (libraryBookingService.Borrow db now fid uid req).1 =
        .error "you already have an active booking for this book" ∧
      errKind "you already have an active booking for this book" = .Conflict) ∧
    ((db.users.find? (fun u => u.id == uid)).isSome = true →
     (db.books.find? (fun b => b.id == req.bookID)).isSome = true →
     db.bookings.find?
        (fun b => b.userID == uid && b.bookID == req.bookID && b.status == "ACTIVE") = none →
     (req.borrowDays < 1 ∨ 30 < req.borrowDays) →
      (libraryBookingService.Borrow db now fid uid req).1 =
        .error "borrow days must be between 1 and 30" ∧
      errKind "borrow days must be between 1 and 30" = .InvalidArgument) := by
  refine ⟨fun h1 => ⟨?_, by decide⟩, fun h1 h2 => ⟨?_, by decide⟩,
          fun h1 h2 h3 => ⟨?_, by decide⟩, fun h1 h2 h3 h4 => ⟨?_, by decide⟩⟩
  · rw [borrow_characterization, h1]
  · obtain ⟨u, hu⟩ := Option.isSome_iff_exists.mp h1
    rw [borrow_characterization, hu, h2]
  · obtain ⟨u, hu⟩ := Option.isSome_iff_exists.mp h1
    obtain ⟨bk, hbk⟩ := Option.isSome_iff_exists.mp h2
    obtain ⟨a, ha⟩ := Option.isSome_iff_exists.mp h3
    rw [borrow_characterization, hu, hbk, ha]
  · obtain ⟨u, hu⟩ := Option.isSome_iff_exists.mp h1
    obtain ⟨bk, hbk⟩ := Option.isSome_iff_exists.mp h2
    have hd : (decide (req.borrowDays < 1) || decide (req.borrowDays > 30)) = true := by
      rcases h4 with h | h
      · simp [h]
      · simp [gt_iff_lt, h]
    rw [borrow_characterization, hu, hbk, h3]
    simp [hd]

/-- Witness for C7: with both an active booking present and borrowDays out
of range (0), the duplicate-borrow Conflict error is reported. -/
theorem borrow_error_order_and_kinds_witness :
    (libraryBookingService.Borrow
        { users := [{ id := "u1", username := "alice", email := "a@e.com", role := "user" }],
          books := [{ id := "b1", title := "T", author := "A",
                      publishedYear := some 2000, isbn := some "I",
                      createdAt := 1, updatedAt := 1, version := 1 }],
          bookings := [{ id := "k1", userID := "u1", bookID := "b1", borrowedAt := 2,
                         dueDate := 9, returnedAt := none, status := "ACTIVE",
                         createdAt := 2, updatedAt := 2 }] } 5 "bid9" "u1"
        { bookID := "b1", borrowDays := 0 }).1 =
      .error "you already have an active booking for this book" ∧
    errKind "you already have an active booking for this book" = .Conflict :=
  (borrow_error_order_and_kinds
    { users := [{ id := "u1", username := "alice", email := "a@e.com", role := "user" }],
      books := [{ id := "b1", title := "T", author := "A",
                  publishedYear := some 2000, isbn := some "I",
                  createdAt := 1, updatedAt := 1, version := 1 }],
      bookings := [{ id := "k1", userID := "u1", bookID := "b1", borrowedAt := 2,
                     dueDate := 9, returnedAt := none, status := "ACTIVE",
                     createdAt := 2, updatedAt := 2 }] } 5 "bid9" "u1"
    { bookID := "b1", borrowDays := 0 }).2.2.1 (by decide) (by decide) (by decide)

/-! ## Claim C9 -/

/-- Claim C9: Borrow is atomic on failure — whenever it returns an error the
store is unchanged, and a new booking row is appended only on the success
path. -/
theorem borrow_failure_atomic (db : PgDB) (now : Time) (fid uid : String)
    (req : BorrowBookRequest) :
    (∀ e, (libraryBookingService.Borrow db now fid uid req).1 = .error e →
        (libraryBookingService.Borrow db now fid uid req).2 = db) ∧
    (∀ bk, (libraryBookingService.Borrow db now fid uid req).1 = .ok bk →
        (libraryBookingService.Borrow db now fid uid req).2 =
          { db with bookings := db.bookings ++ [bk] }) := by
  rw [borrow_characterization]
  cases db.users.find? (fun u => u.id == uid) with
  | none => exact ⟨fun e _ => rfl, fun bk h => by cases h⟩
  | some u =>
    cases db.books.find? (fun b => b.id == req.bookID) with
    | none => exact ⟨fun e _ => rfl, fun bk h => by cases h⟩
    | some b0 =>
      cases db.bookings.find?
          (fun b => b.userID == uid && b.bookID == req.bookID && b.status == "ACTIVE") with
      | some a => exact ⟨fun e _ => rfl, fun bk h => by cases h⟩
      | none =>
        rcases Bool.eq_false_or_eq_true
            (decide (req.borrowDays < 1) || decide (req.borrowDays > 30)) with hd | hd
        · rw [if_pos hd]
          exact ⟨fun e _ => rfl, fun bk h => by cases h⟩
        · rw [if_neg (ne_true_of_eq_false hd)]
          refine ⟨?_, ?_⟩
          · intro e h
            cases h
          · intro bk h
            cases h
            rfl

/-- Witness for C9: a failing borrow (borrowDays = 0) leaves the store
unchanged. -/
theorem borrow_failure_atomic_witness :
    (libraryBookingService.Borrow
        { users := [{ id := "u1", username := "alice", email := "a@e.com", role := "user" }],
          books := [{ id := "b1", title := "T", author := "A",
                      publishedYear := some 2000, isbn := some "I",
                      createdAt := 1, updatedAt := 1, version := 1 }],
          bookings := [] } 5 "bid1" "u1" { bookID := "b1", borrowDays := 0 }).2 =
      { users := [{ id := "u1", username := "alice", email := "a@e.com", role := "user" }],
        books := [{ id := "b1", title := "T", author := "A",
                    publishedYear := some 2000, isbn := some "I",
                    createdAt := 1, updatedAt := 1, version := 1 }],
        bookings := [] } :=
  (borrow_failure_atomic
    { users := [{ id := "u1", username := "alice", email := "a@e.com", role := "user" }],
      books := [{ id := "b1", title := "T", author := "A",
                  publishedYear := some 2000, isbn := some "I",
                  createdAt := 1, updatedAt := 1, version := 1 }],
      bookings := [] } 5 "bid1" "u1" { bookID := "b1", borrowDays := 0 }).1
    "borrow days must be between 1 and 30" rfl

/-! ## Claim C5 -/

/-- The booking-table UPDATE issued by `Return` leaves the `id` column (the
WHERE key) untouched, so `find?` by id commutes with it. -/
theorem returnPatch_find (l : List Booking) (bid : String) (u : BookingUpdates) (now : Time) :
    (l.map (fun b => if b.id == bid then applyBookingUpdates b u now else b)).find?
        (fun b => b.id == bid) =
      (l.find? (fun b => b.id == bid)).map
        (fun b => if b.id == bid then applyBookingUpdates b u now else b) := by
  apply find?_map_pres
  intro a
  rcases Bool.eq_false_or_eq_true (a.id == bid) with h | h
  · rw [if_pos h]
    rfl
  · rw [if_neg (ne_true_of_eq_false h)]

/-- Complete case analysis of `bookingService.Return` over the Postgres
store: lookup, already-returned guard, then the persisted update. -/
theorem return_characterization (db : PgDB) (now : Time) (bid : String) :
    libraryBookingService.Return db now bid =
      match db.bookings.find? (fun b => b.id == bid) with
      | none => (.error "booking not found", db)
      | some booking =>
        if booking.status == "RETURNED" then (.error "book already returned", db)
        else
          (.ok (applyBookingUpdates booking
                 { returned_at := some now, status := some "RETURNED" } now),
           { db with bookings := db.bookings.map (fun b =>
               if b.id == bid then
                 applyBookingUpdates b { returned_at := some now, status := some "RETURNED" } now
               else b) }) := by
  simp only [BookingServiceS.Return, libraryBookingService, pgBookingRepo,
    pgBookingRepoGetByID, pgBookingRepoUpdate]
  cases hf : db.bookings.find? (fun b => b.id == bid) with
  | none => rfl
  | some booking =>
    have hbid := List.find?_some hf
    rcases Bool.eq_false_or_eq_true (booking.status == "RETURNED") with hs | hs
    · simp [hs]
    · simp only [hs, Bool.false_eq_true, if_false]
      rw [returnPatch_find, hf]
      simp only [Option.map_some']
      rw [if_pos hbid]

/-- Claim C5: Return fails with "booking not found" when the booking is
absent, fails with "book already returned" when its status is RETURNED
(a second Return is rejected, not a no-op), and otherwise succeeds —
regardless of whether the prior status was ACTIVE or OVERDUE — setting
status = RETURNED and returned_at = now on the returned booking and in the
store, leaving the other booking fields intact. -/
theorem return_spec (db : PgDB) (now : Time) (bid : String) :
    (db.bookings.find? (fun b => b.id == bid) = none →
      libraryBookingService.Return db now bid = (.error "booking not found", db)) ∧
    (∀ bk, db.bookings.find? (fun b => b.id == bid) = some bk → bk.status = "RETURNED" →
      libraryBookingService.Return db now bid = (.error "book already returned", db)) ∧
    (∀ bk, db.bookings.find? (fun b => b.id == bid) = some bk → bk.status ≠ "RETURNED" →
      ∃ bk2, (libraryBookingService.Return db now bid).1 = .ok bk2 ∧
        bk2.status = "RETURNED" ∧ bk2.returnedAt = some now ∧ bk2.id = bk.id ∧
        bk2.userID = bk.userID ∧ bk2.bookID = bk.bookID ∧ bk2.borrowedAt = bk.borrowedAt ∧
        bk2.dueDate = bk.dueDate ∧
        (libraryBookingService.Return db now bid).2.bookings.find? (fun b => b.id == bid)
          = some bk2) := by
  refine ⟨?_, ?_, ?_⟩
  · intro h
    rw [return_characterization, h]
  · intro bk h hs
    have hsb : (bk.status == "RETURNED") = true := beq_iff_eq.mpr hs
    rw [return_characterization, h]
    simp [hsb]
  · intro bk h hs
    have hsb : (bk.status == "RETURNED") = false := by
      simp only [beq_eq_false_iff_ne, ne_eq]
      exact hs
    have hbid := List.find?_some h
    rw [return_characterization, h]
    refine ⟨applyBookingUpdates bk { returned_at := some now, status := some "RETURNED" } now,
      ?_, rfl, rfl, rfl, rfl, rfl, rfl, rfl, ?_⟩
    · simp [hsb]
    · simp only [hsb, Bool.false_eq_true, if_false]
      rw [returnPatch_find, h]
      simp only [Option.map_some']
      rw [if_pos hbid]

/-- Witness for C5: returning an OVERDUE booking succeeds with status
RETURNED and returned_at set. -/
theorem return_spec_witness :
    ∃ bk2, ((libraryBookingService.Return
        { users := [], books := [],
          bookings := [{ id := "k1", userID := "u1", bookID := "b1", borrowedAt := 2,
                         dueDate := 9, returnedAt := none, status := "OVERDUE",
                         createdAt := 2, updatedAt := 2 }] } 25 "k1").1 = .ok bk2 ∧
      bk2.status = "RETURNED" ∧ bk2.returnedAt = some 25 ∧ bk2.id = "k1" ∧
      bk2.userID = "u1" ∧ bk2.bookID = "b1" ∧ bk2.borrowedAt = 2 ∧ bk2.dueDate = 9 ∧
      (libraryBookingService.Return
        { users := [], books := [],
          bookings := [{ id := "k1", userID := "u1", bookID := "b1", borrowedAt := 2,
                         dueDate := 9, returnedAt := none, status := "OVERDUE",
                         createdAt := 2, updatedAt := 2 }] } 25 "k1").2.bookings.find?
        (fun b => b.id == "k1") = some bk2) :=
  (return_spec
    { users := [], books := [],
      bookings := [{ id := "k1", userID := "u1", bookID := "b1", borrowedAt := 2,
                     dueDate := 9, returnedAt := none, status := "OVERDUE",
                     createdAt := 2, updatedAt := 2 }] } 25 "k1").2.2
    { id := "k1", userID := "u1", bookID := "b1", borrowedAt := 2,
      dueDate := 9, returnedAt := none, status := "OVERDUE",
      createdAt := 2, updatedAt := 2 } (by decide) (by decide)

/-! ## Claim C6 -/

/-- A row already transitioned (or left alone) by the overdue sweep is a
fixed point of the sweep: the per-row transition is idempotent. -/
theorem markOverdueStep_idem (now : Time) (b : Booking) :
    markOverdueStep now (markOverdueStep now b) = markOverdueStep now b := by
  unfold markOverdueStep
  rcases Bool.eq_false_or_eq_true (b.status == "ACTIVE" && decide (b.dueDate < now)) with h | h
  · rw [if_pos h]
    rw [if_neg ?_]
    simp
  · rw [if_neg (ne_true_of_eq_false h), if_neg (ne_true_of_eq_false h)]

/-- Claim C6: UpdateOverdue transitions exactly the bookings with status
ACTIVE and due_date < now to OVERDUE (stamping updated_at), membership of
every other booking is preserved unchanged, and an immediately repeated run
changes no booking state (idempotence). -/
theorem updateOverdue_spec (db : PgDB) (now : Time) :
    ∃ db1, libraryBookingService.UpdateOverdue db now = .ok db1 ∧
      (∀ b ∈ db.bookings, b.status = "ACTIVE" → b.dueDate < now →
        { b with status := "OVERDUE", updatedAt := now } ∈ db1.bookings) ∧
      (∀ b ∈ db.bookings, ¬(b.status = "ACTIVE" ∧ b.dueDate < now) → b ∈ db1.bookings) ∧
      libraryBookingService.UpdateOverdue db1 now = .ok db1 := by
  refine ⟨{ db with bookings := pgBookingRepoMarkOverdue db.bookings now }, rfl, ?_, ?_, ?_⟩
  · intro b hb hact hdue
    have hstep : markOverdueStep now b = { b with status := "OVERDUE", updatedAt := now } := by
      unfold markOverdueStep
      rw [if_pos]
      simp [hact, hdue]
    exact hstep ▸ List.mem_map_of_mem (markOverdueStep now) hb
  · intro b hb hnot
    have hstep : markOverdueStep now b = b := by
      unfold markOverdueStep
      rw [if_neg]
      intro hc
      rcases Bool.and_eq_true_iff.mp hc with ⟨h1, h2⟩
      exact hnot ⟨beq_iff_eq.mp h1, of_decide_eq_true h2⟩
    exact hstep ▸ List.mem_map_of_mem (markOverdueStep now) hb
  · show Except.ok _ = Except.ok _
    congr 1
    show { db with bookings :=
        pgBookingRepoMarkOverdue (pgBookingRepoMarkOverdue db.bookings now) now } =
      { db with bookings := pgBookingRepoMarkOverdue db.bookings now }
    congr 1
    unfold pgBookingRepoMarkOverdue
    rw [List.map_map]
    exact List.map_congr_left (fun b _ => markOverdueStep_idem now b)

/-- Witness for C6: on a store with one overdue-ACTIVE, one RETURNED and
one not-yet-due ACTIVE booking, the sweep transitions exactly the first and
a second run returns the same store. -/
theorem updateOverdue_spec_witness :
    ∃ db1, libraryBookingService.UpdateOverdue
        { users := [], books := [],
          bookings := [
            { id := "k1", userID := "u1", bookID := "b1", borrowedAt := 2, dueDate := 9,
              returnedAt := none, status := "ACTIVE", createdAt := 2, updatedAt := 2 },
            { id := "k2", userID := "u2", bookID := "b1", borrowedAt := 2, dueDate := 9,
              returnedAt := some 8, status := "RETURNED", createdAt := 2, updatedAt := 8 },
            { id := "k3", userID := "u3", bookID := "b1", borrowedAt := 9, dueDate := 30,
              returnedAt := none, status := "ACTIVE", createdAt := 9, updatedAt := 9 }] } 10
        = .ok db1 ∧
      ({ id := "k1", userID := "u1", bookID := "b1", borrowedAt := 2, dueDate := 9,
         returnedAt := none, status := "OVERDUE", createdAt := 2, updatedAt := 10 } : Booking)
        ∈ db1.bookings ∧
      ({ id := "k2", userID := "u2", bookID := "b1", borrowedAt := 2, dueDate := 9,
         returnedAt := some 8, status := "RETURNED", createdAt := 2, updatedAt := 8 } : Booking)
        ∈ db1.bookings ∧
      ({ id := "k3", userID := "u3", bookID := "b1", borrowedAt := 9, dueDate := 30,
         returnedAt := none, status := "ACTIVE", createdAt := 9, updatedAt := 9 } : Booking)
        ∈ db1.bookings ∧
      libraryBookingService.UpdateOverdue db1 10 = .ok db1 := by
  obtain ⟨db1, h1, h2, h3, h4⟩ := updateOverdue_spec
    { users := [], books := [],
      bookings := [
        { id := "k1", userID := "u1", bookID := "b1", borrowedAt := 2, dueDate := 9,
          returnedAt := none, status := "ACTIVE", createdAt := 2, updatedAt := 2 },
        { id := "k2", userID := "u2", bookID := "b1", borrowedAt := 2, dueDate := 9,
          returnedAt := some 8, status := "RETURNED", createdAt := 2, updatedAt := 8 },
        { id := "k3", userID := "u3", bookID := "b1", borrowedAt := 9, dueDate := 30,
          returnedAt := none, status := "ACTIVE", createdAt := 9, updatedAt := 9 }] } 10
  refine ⟨db1, h1, ?_, ?_, ?_, h4⟩
  · exact h2 { id := "k1", userID := "u1", bookID := "b1", borrowedAt := 2, dueDate := 9,
               returnedAt := none, status := "ACTIVE", createdAt := 2, updatedAt := 2 }
      (by simp) (by decide) (by decide)
  · exact h3 { id := "k2", userID := "u2", bookID := "b1", borrowedAt := 2, dueDate := 9,
               returnedAt := some 8, status := "RETURNED", createdAt := 2, updatedAt := 8 }
      (by simp) (by decide)
  · exact h3 { id := "k3", userID := "u3", bookID := "b1", borrowedAt := 9, dueDate := 30,
               returnedAt := none, status := "ACTIVE", createdAt := 9, updatedAt := 9 }
      (by simp) (by decide)

/-! ## Claim C10 -/

/-- The books-table conditional UPDATE leaves the `id` column (part of the
WHERE key) untouched, so `find?` by any id commutes with it. -/
theorem bookPatch_find (l : List Book) (id qid : String) (ver : Int) (t a : String)
    (py : Option Int) (ib : Option String) (now : Time) (nv : Int) :
    (l.map (fun b =>
        if b.id == id && b.version == ver then
          { b with title := t, author := a, publishedYear := py, isbn := ib,
                   updatedAt := now, version := nv }
        else b)).find? (fun b => b.id == qid) =
      (l.find? (fun b => b.id == qid)).map (fun b =>
        if b.id == id && b.version == ver then
          { b with title := t, author := a, publishedYear := py, isbn := ib,
                   updatedAt := now, version := nv }
        else b) := by
  apply find?_map_pres
  intro x
  rcases Bool.eq_false_or_eq_true (x.id == id && x.version == ver) with h | h
  · rw [if_pos h]
  · rw [if_neg (ne_true_of_eq_false h)]

/-- Counterexample to C10 as stated: with the stored book at version 3 and
an update map lacking the author key, Update does not overwrite the stored
author with NULL — author is TEXT NOT NULL in the DDL, so the UPDATE
statement fails; the Go code discards Exec's error, sees
RowsAffected() == 0 and reports the conflict message instead of
succeeding. -/
theorem bookUpdate_absent_author_fails :
    pgBookRepoUpdate
        [{ id := "b1", title := "T", author := "A", publishedYear := some 1999,
           isbn := some "I", createdAt := 1, updatedAt := 1, version := 3 }]
        [{ id := "b1", title := "T", author := "A", publishedYear := some 1999,
           isbn := some "I", createdAt := 1, updatedAt := 1, version := 3 }]
        "b1" { title := some "T2" } 7 =
      .error "conflict: book was modified by another request" ∧
    ∀ r, pgBookRepoUpdate
        [{ id := "b1", title := "T", author := "A", publishedYear := some 1999,
           isbn := some "I", createdAt := 1, updatedAt := 1, version := 3 }]
        [{ id := "b1", title := "T", author := "A", publishedYear := some 1999,
           isbn := some "I", createdAt := 1, updatedAt := 1, version := 3 }]
        "b1" { title := some "T2" } 7 ≠ .ok r :=
  ⟨rfl, fun _ h => Except.noConfusion h⟩

/-- Claim C10 as amended: the Update statement's SET clause always carries
all four columns from the supplied field map.  When the map holds title
and author (the NOT NULL columns), the update succeeds and an absent
published_year or isbn key overwrites that stored column with NULL rather
than leaving it unchanged, while id and created_at keep their stored
values.  When the map lacks title or author, the statement violates NOT
NULL: no column changes and Update reports the conflict message (Exec's
error being discarded and only RowsAffected checked).  Sequential case:
read and write on the same store. -/
theorem bookUpdate_writes_all_columns (db : List Book) (id : String) (t a : String)
    (py : Option Int) (ib : Option String) (now : Time) (bk : Book)
    (h : db.find? (fun b => b.id == id) = some bk) :
    (∃ db2, pgBookRepoUpdate db db id
        { title := some t, author := some a, published_year := py, isbn := ib } now =
      .ok ({ id := bk.id, title := t, author := a, publishedYear := py, isbn := ib,
             createdAt := bk.createdAt, updatedAt := now, version := bk.version + 1 }, db2)) ∧
    (∀ upd : BookUpdates, upd.title = none ∨ upd.author = none →
      pgBookRepoUpdate db db id upd now =
        .error "conflict: book was modified by another request") := by
  have hid := List.find?_some h
  have hmem := List.mem_of_find?_eq_some h
  constructor
  · have hcount : db.countP (fun b => b.id == id && b.version == bk.version) ≠ 0 := by
      intro hc
      exact absurd (by simp [hid]) (List.countP_eq_zero.mp hc bk hmem)
    refine ⟨db.map (fun b =>
        if b.id == id && b.version == bk.version then
          { b with title := t, author := a, publishedYear := py, isbn := ib,
                   updatedAt := now, version := bk.version + 1 }
        else b), ?_⟩
    unfold pgBookRepoUpdate booksConditionalWrite
    simp only [h]
    rw [if_neg hcount, bookPatch_find, h]
    simp only [Option.map_some']
    rw [if_pos (by simp [hid])]
  · intro upd hnull
    have hw : booksConditionalWrite db id upd now bk.version (bk.version + 1) = (0, db) := by
      unfold booksConditionalWrite
      rcases hnull with hn | hn
      · simp only [hn]
      · cases ht : upd.title with
        | none => simp only [ht]
        | some tt => simp only [ht, hn]
    unfold pgBookRepoUpdate
    simp only [h, hw]
    rfl

/-- Witness for C10 (amended): an update carrying title and author but no
published_year or isbn key overwrites those nullable columns with NULL and
preserves id and created_at; and an update map lacking the author key
fails with the conflict message. -/
theorem bookUpdate_writes_all_columns_witness :
    (∃ db2, pgBookRepoUpdate
        [{ id := "b1", title := "T", author := "A", publishedYear := some 1999,
           isbn := some "I", createdAt := 1, updatedAt := 1, version := 3 }]
        [{ id := "b1", title := "T", author := "A", publishedYear := some 1999,
           isbn := some "I", createdAt := 1, updatedAt := 1, version := 3 }]
        "b1" { title := some "T2", author := some "A2" } 7 =
      .ok ({ id := "b1", title := "T2", author := "A2", publishedYear := none,
             isbn := none, createdAt := 1, updatedAt := 7, version := 3 + 1 }, db2)) ∧
    (∀ upd : BookUpdates, upd.title = none ∨ upd.author = none →
      pgBookRepoUpdate
        [{ id := "b1", title := "T", author := "A", publishedYear := some 1999,
           isbn := some "I", createdAt := 1, updatedAt := 1, version := 3 }]
        [{ id := "b1", title := "T", author := "A", publishedYear := some 1999,
           isbn := some "I", createdAt := 1, updatedAt := 1, version := 3 }]
        "b1" upd 7 = .error "conflict: book was modified by another request") :=
  bookUpdate_writes_all_columns
    [{ id := "b1", title := "T", author := "A", publishedYear := some 1999,
       isbn := some "I", createdAt := 1, updatedAt := 1, version := 3 }]
    "b1" "T2" "A2" none none 7
    { id := "b1", title := "T", author := "A", publishedYear := some 1999,
      isbn := some "I", createdAt := 1, updatedAt := 1, version := 3 } (by decide)

/-! ## Claim C3 -/

/-- Claim C3: compare-and-swap semantics of the book update.  A book is
created at version 1; one update (read and write phases both on that
store; its field map carries the NOT NULL title and author columns, as
every handler-built map does) succeeds and advances it to version 2; a
second update whose Step-1 read still saw version 1 (its read phase
predates the first update's write — the concurrent-interleaving window of
the two-phase protocol) supplies the stale version 1 to the conditional
write and gets the Conflict error instead of succeeding, whatever its
field map. -/
theorem bookUpdate_stale_version_conflict (b : Book) (ttl atr : String)
    (py1 : Option Int) (ib1 : Option String) (upd2 : BookUpdates)
    (t0 t1 t2 : Time) (fid : String) :
    ∃ r1, pgBookRepoUpdate (pgBookRepoCreate [] b t0 fid).2 (pgBookRepoCreate [] b t0 fid).2
            fid { title := some ttl, author := some atr, published_year := py1, isbn := ib1 }
            t1 = .ok r1 ∧
      r1.1.version = 2 ∧
      pgBookRepoUpdate (pgBookRepoCreate [] b t0 fid).2 r1.2 fid upd2 t2 =
        .error "conflict: book was modified by another request" := by
  refine ⟨({ b with id := fid, title := ttl, author := atr,
                    publishedYear := py1, isbn := ib1,
                    createdAt := t0, updatedAt := t1, version := 2 },
           [{ b with id := fid, title := ttl, author := atr,
                     publishedYear := py1, isbn := ib1,
                     createdAt := t0, updatedAt := t1, version := 2 }]), ?_, rfl, ?_⟩
  · simp [pgBookRepoCreate, pgBookRepoUpdate, booksConditionalWrite]
  · cases ht : upd2.title with
    | none => simp [pgBookRepoCreate, pgBookRepoUpdate, booksConditionalWrite, ht]
    | some tt =>
      cases ha : upd2.author with
      | none => simp [pgBookRepoCreate, pgBookRepoUpdate, booksConditionalWrite, ht, ha]
      | some aa => simp [pgBookRepoCreate, pgBookRepoUpdate, booksConditionalWrite, ht, ha]

/-! ## Claim C4 -/

/-- Claim C4 (refuting evidence): when the conditional write affects zero
rows (here: the stored version was advanced from 1 to 2 between the
service's read and write), `bookServiceImpl.Update` composed with the
current repository does NOT return `ErrConflict` — the repository reports
the conflict as `"conflict: book was modified by another request"`, the
service's translation only matches the stale message
`"conflict: stale version or not found"`, so the caller receives the
untranslated repository error. -/
theorem bookCatalog_conflict_not_translated :
    bookServiceImplUpdate
        [{ id := "b1", title := "T", author := "A", publishedYear := some 2000,
           isbn := some "I", createdAt := 0, updatedAt := 0, version := 1 }]
        [{ id := "b1", title := "T", author := "A", publishedYear := some 2000,
           isbn := some "I", createdAt := 0, updatedAt := 0, version := 2 }]
        "b1" { title := some "T2", author := some "A2", published_year := some 2001,
               isbn := some "I2" } 5 =
      .error "conflict: book was modified by another request" ∧
    "conflict: book was modified by another request" ≠ ErrConflictMsg := by
  exact ⟨rfl, by decide⟩

/-! ## Claim C8 -/

/-- A `repo.BookingRepo` implementation whose active-booking lookup fails
with a storage error (the service is programmed against the interface, so
this is a legitimate store; the tests build mocks the same way). -/
def failingActiveRepo : BookingRepoFns PgDB :=
  { pgBookingRepo with GetActive := fun _ _ _ => .error "storage failure: connection reset" }

/-- `NewBookingService` wired with the store whose active lookup fails. -/
def failingActiveService : BookingServiceS PgDB :=
  { libraryBookingService with bookingRepo := failingActiveRepo }

/-- Counterexample to C8 as stated: the active-booking lookup returns a
storage error, yet Borrow succeeds (the error is discarded by
`active, _ := s.bookingRepo.GetActive(...)` and treated as "no active
booking exists"), instead of propagating the error to the caller. -/
theorem borrow_active_lookup_error_swallowed :
    failingActiveRepo.GetActive
        { users := [{ id := "u1", username := "alice", email := "a@e.com", role := "user" }],
          books := [{ id := "b1", title := "T", author := "A",
                      publishedYear := some 2000, isbn := some "I",
                      createdAt := 1, updatedAt := 1, version := 1 }],
          bookings := [] } "u1" "b1" = .error "storage failure: connection reset" ∧
    (failingActiveService.Borrow
        { users := [{ id := "u1", username := "alice", email := "a@e.com", role := "user" }],
          books := [{ id := "b1", title := "T", author := "A",
                      publishedYear := some 2000, isbn := some "I",
                      createdAt := 1, updatedAt := 1, version := 1 }],
          bookings := [] } 5 "bid1" "u1" { bookID := "b1", borrowDays := 7 }).1 =
      .ok { id := "bid1", userID := "u1", bookID := "b1", borrowedAt := 5,
            dueDate := addDays 5 7, returnedAt := none, status := "ACTIVE",
            createdAt := 5, updatedAt := 5 } :=
  ⟨rfl, rfl⟩

/-- Claim C8 as amended: errors from the user lookup, book lookup and
insert are all surfaced to Borrow's caller (the lookups as the "user not
found" / "book not found" errors, the insert error verbatim), but an error
from the active-booking lookup is discarded — Borrow then behaves exactly
as if no active booking existed, proceeding to the range check and the
insert. -/
theorem borrow_error_propagation_amended {σ : Type} (s : BookingServiceS σ) (db : σ)
    (now : Time) (fid uid : String) (req : BorrowBookRequest) (e : String)
    (hu : (s.userRepo.GetByID db uid).isOk = true)
    (hb : (s.bookRepo.GetByID db req.bookID).isOk = true)
    (ha : s.bookingRepo.GetActive db uid req.bookID = .error e)
    (hd1 : 1 ≤ req.borrowDays) (hd2 : req.borrowDays ≤ 30) :
    s.Borrow db now fid uid req =
      match s.bookingRepo.Create db (borrowBooking uid req now) now fid with
      | .error ce => (.error ce, db)
      | .ok r => (.ok r.1, r.2) := by
  unfold BookingServiceS.Borrow
  cases hu' : s.userRepo.GetByID db uid with
  | error eu => rw [hu'] at hu; cases hu
  | ok u =>
    cases hb' : s.bookRepo.GetByID db req.bookID with
    | error eb => rw [hb'] at hb; cases hb
    | ok b0 =>
      rw [ha]
      have hd : (decide (req.borrowDays < 1) || decide (req.borrowDays > 30)) = false := by
        simp only [Bool.or_eq_false_iff, decide_eq_false_iff_not, not_lt, gt_iff_lt]
        exact ⟨hd1, hd2⟩
      rw [if_neg (ne_true_of_eq_false hd)]
      cases s.bookingRepo.Create db (borrowBooking uid req now) now fid with
      | error ce => rfl
      | ok r => rfl

/-- Witness for the amended C8: with the failing active lookup, Borrow
still inserts and succeeds (the create result is the Postgres insert). -/
theorem borrow_error_propagation_amended_witness :
    failingActiveService.Borrow
        { users := [{ id := "u1", username := "alice", email := "a@e.com", role := "user" }],
          books := [{ id := "b1", title := "T", author := "A",
                      publishedYear := some 2000, isbn := some "I",
                      createdAt := 1, updatedAt := 1, version := 1 }],
          bookings := [] } 5 "bid1" "u1" { bookID := "b1", borrowDays := 7 } =
      match failingActiveService.bookingRepo.Create
          { users := [{ id := "u1", username := "alice", email := "a@e.com", role := "user" }],
            books := [{ id := "b1", title := "T", author := "A",
                        publishedYear := some 2000, isbn := some "I",
                        createdAt := 1, updatedAt := 1, version := 1 }],
            bookings := [] }
          (borrowBooking "u1" { bookID := "b1", borrowDays := 7 } 5) 5 "bid1" with
      | .error ce => (.error ce,
          { users := [{ id := "u1", username := "alice", email := "a@e.com", role := "user" }],
            books := [{ id := "b1", title := "T", author := "A",
                        publishedYear := some 2000, isbn := some "I",
                        createdAt := 1, updatedAt := 1, version := 1 }],
            bookings := [] })
      | .ok r => (.ok r.1, r.2) :=
  borrow_error_propagation_amended failingActiveService
    { users := [{ id := "u1", username := "alice", email := "a@e.com", role := "user" }],
      books := [{ id := "b1", title := "T", author := "A",
                  publishedYear := some 2000, isbn := some "I",
                  createdAt := 1, updatedAt := 1, version := 1 }],
      bookings := [] } 5 "bid1" "u1" { bookID := "b1", borrowDays := 7 }
    "storage failure: connection reset" rfl rfl rfl (by decide) (by decide)

/-! ## Claim C2 -/

/-- One call to the book store's Update: target id, the field map, and the
clock read inside the call. -/
structure UpdateOp where
  id : String
  updates : BookUpdates
  now : Time

/-- Apply one sequential Update call (read and conditional write both see
the current store, there being no concurrent writer between the two
statements); a failed call leaves the store unchanged. -/
def applyUpdateOp (db : List Book) (op : UpdateOp) : List Book :=
  match pgBookRepoUpdate db db op.id op.updates op.now with
  | .ok r => r.2
  | .error _ => db

/-- Run a sequence of sequential Update calls. -/
def runUpdateOps (db : List Book) (ops : List UpdateOp) : List Book :=
  ops.foldl applyUpdateOp db

/-- The number of calls in the sequence that target book `B` and succeed
(evaluated against the store state each call sees). -/
def successCountFor (B : String) : List Book → List UpdateOp → Nat
  | _, [] => 0
  | db, op :: rest =>
    (if op.id = B ∧ (pgBookRepoUpdate db db op.id op.updates op.now).isOk = true then 1 else 0)
      + successCountFor B (applyUpdateOp db op) rest

/-- The stored version of book `B` (the row a `WHERE id` read would return). -/
def bookVersion (db : List Book) (B : String) : Option Int :=
  (db.find? (fun b => b.id == B)).map (fun b => b.version)

/-- A failed Update call leaves the store — hence every stored version —
unchanged. -/
theorem applyUpdateOp_version_of_error (db : List Book) (op : UpdateOp) (B : String)
    (v : Int) (e : String) (h : bookVersion db B = some v)
    (hupd : pgBookRepoUpdate db db op.id op.updates op.now = .error e) :
    bookVersion (applyUpdateOp db op) B =
      some (if op.id = B ∧ (pgBookRepoUpdate db db op.id op.updates op.now).isOk = true
            then v + 1 else v) := by
  have happly : applyUpdateOp db op = db := by
    unfold applyUpdateOp
    rw [hupd]
  have hcond : ¬(op.id = B ∧
      (pgBookRepoUpdate db db op.id op.updates op.now).isOk = true) := by
    rintro ⟨-, hk⟩
    rw [hupd] at hk
    cases hk
  rw [happly, if_neg hcond]
  exact h

/-- One sequential Update step: a successful call targeting `B` advances
`B`'s stored version by exactly 1, every other call (missing target, or a
map lacking the NOT NULL title/author columns) leaves it unchanged. -/
theorem applyUpdateOp_version (db : List Book) (op : UpdateOp) (B : String) (v : Int)
    (h : bookVersion db B = some v) :
    bookVersion (applyUpdateOp db op) B =
      some (if op.id = B ∧ (pgBookRepoUpdate db db op.id op.updates op.now).isOk = true
            then v + 1 else v) := by
  obtain ⟨bk, hfind, hv⟩ : ∃ bk, db.find? (fun b => b.id == B) = some bk ∧ bk.version = v := by
    unfold bookVersion at h
    cases hf : db.find? (fun b => b.id == B) with
    | none => rw [hf] at h; cases h
    | some bk =>
      rw [hf] at h
      simp only [Option.map_some'] at h
      exact ⟨bk, rfl, by injection h⟩
  cases hop : db.find? (fun b => b.id == op.id) with
  | none =>
    refine applyUpdateOp_version_of_error db op B v "book not found" h ?_
    unfold pgBookRepoUpdate
    rw [hop]
  | some current =>
    have hcur : (current.id == op.id && current.version == current.version) = true := by
      simp [List.find?_some hop]
    cases hta : op.updates.title with
    | none =>
      refine applyUpdateOp_version_of_error db op B v
          "conflict: book was modified by another request" h ?_
      have hw : booksConditionalWrite db op.id op.updates op.now current.version
          (current.version + 1) = (0, db) := by
        unfold booksConditionalWrite
        simp only [hta]
      unfold pgBookRepoUpdate
      simp only [hop, hw]
      rfl
    | some t =>
      cases haa : op.updates.author with
      | none =>
        refine applyUpdateOp_version_of_error db op B v
          "conflict: book was modified by another request" h ?_
        have hw : booksConditionalWrite db op.id op.updates op.now current.version
            (current.version + 1) = (0, db) := by
          unfold booksConditionalWrite
          simp only [hta, haa]
        unfold pgBookRepoUpdate
        simp only [hop, hw]
        rfl
      | some a =>
        have hcount : db.countP (fun b => b.id == op.id && b.version == current.version) ≠ 0 :=
          Nat.pos_iff_ne_zero.mp
            (List.countP_pos_iff.mpr ⟨current, List.mem_of_find?_eq_some hop, hcur⟩)
        have hw : booksConditionalWrite db op.id op.updates op.now current.version
            (current.version + 1) =
            (db.countP (fun b => b.id == op.id && b.version == current.version),
             db.map (fun b =>
               if b.id == op.id && b.version == current.version then
                 { b with title := t, author := a,
                          publishedYear := op.updates.published_year,
                          isbn := op.updates.isbn,
                          updatedAt := op.now, version := current.version + 1 }
               else b)) := by
          unfold booksConditionalWrite
          simp only [hta, haa]
        have hupd : pgBookRepoUpdate db db op.id op.updates op.now =
            .ok ({ current with title := t, author := a,
                                publishedYear := op.updates.published_year,
                                isbn := op.updates.isbn,
                                updatedAt := op.now, version := current.version + 1 },
                 db.map (fun b =>
                   if b.id == op.id && b.version == current.version then
                     { b with title := t, author := a,
                              publishedYear := op.updates.published_year,
                              isbn := op.updates.isbn,
                              updatedAt := op.now, version := current.version + 1 }
                   else b)) := by
          unfold pgBookRepoUpdate
          simp only [hop, hw]
          rw [if_neg hcount, bookPatch_find, hop]
          simp only [Option.map_some']
          rw [if_pos hcur]
        have happly : applyUpdateOp db op = db.map (fun b =>
            if b.id == op.id && b.version == current.version then
              { b with title := t, author := a,
                       publishedYear := op.updates.published_year,
                       isbn := op.updates.isbn,
                       updatedAt := op.now, version := current.version + 1 }
            else b) := by
          unfold applyUpdateOp
          rw [hupd]
        have hok : (pgBookRepoUpdate db db op.id op.updates op.now).isOk = true := by
          rw [hupd]
          rfl
        rw [happly]
        unfold bookVersion
        rw [bookPatch_find, hfind]
        simp only [Option.map_some']
        by_cases hB : op.id = B
        · have hbc : bk = current := by
            rw [← hB] at hfind
            rw [hfind] at hop
            injection hop
          have hbkcond : (bk.id == op.id && bk.version == current.version) = true := by
            rw [hbc]
            exact hcur
          rw [if_pos hbkcond, if_pos ⟨hB, hok⟩]
          have : current.version = v := by rw [← hbc, hv]
          rw [this]
        · have hbkid : bk.id = B := by simpa using List.find?_some hfind
          have hbkcond : (bk.id == op.id && bk.version == current.version) = false := by
            have h2 : (bk.id == op.id) = false := by
              rw [hbkid]
              exact beq_eq_false_iff_ne.mpr (Ne.symm hB)
            rw [h2, Bool.false_and]
          rw [if_neg (ne_true_of_eq_false hbkcond), if_neg (fun hc => hB hc.1), hv]

/-- Running any sequence of sequential Update calls advances a book's
stored version by exactly the number of successful calls targeting it. -/
theorem runUpdateOps_version (ops : List UpdateOp) (db : List Book) (B : String) (v : Int)
    (h : bookVersion db B = some v) :
    bookVersion (runUpdateOps db ops) B = some (v + (successCountFor B db ops : Int)) := by
  induction ops generalizing db v with
  | nil => simpa [runUpdateOps, successCountFor] using h
  | cons op rest ih =>
    have hstep := applyUpdateOp_version db op B v h
    have hrun : runUpdateOps db (op :: rest) = runUpdateOps (applyUpdateOp db op) rest := rfl
    by_cases hc : op.id = B ∧ (pgBookRepoUpdate db db op.id op.updates op.now).isOk = true
    · rw [if_pos hc] at hstep
      have h2 := ih (applyUpdateOp db op) (v + 1) hstep
      rw [hrun, h2]
      have hcnt : successCountFor B db (op :: rest) =
          (if op.id = B ∧ (pgBookRepoUpdate db db op.id op.updates op.now).isOk = true
           then 1 else 0) + successCountFor B (applyUpdateOp db op) rest := rfl
      rw [hcnt, if_pos hc]
      congr 1
      push_cast
      ring
    · rw [if_neg hc] at hstep
      have h2 := ih (applyUpdateOp db op) v hstep
      rw [hrun, h2]
      have hcnt : successCountFor B db (op :: rest) =
          (if op.id = B ∧ (pgBookRepoUpdate db db op.id op.updates op.now).isOk = true
           then 1 else 0) + successCountFor B (applyUpdateOp db op) rest := rfl
      rw [hcnt, if_neg hc]
      congr 1
      push_cast
      ring

/-- Claim C2: Create assigns version 1, and after any sequence of
sequential update calls the stored version of the created book equals the
number of successful updates of that book plus 1 (so the version is
monotonically increasing, each success advancing it by exactly 1). -/
theorem version_eq_successes_plus_one (db : List Book) (b : Book) (t0 : Time) (fid : String)
    (ops : List UpdateOp) (hfresh : ∀ x ∈ db, x.id ≠ fid) :
    bookVersion (pgBookRepoCreate db b t0 fid).2 fid = some 1 ∧
    bookVersion (runUpdateOps (pgBookRepoCreate db b t0 fid).2 ops) fid =
      some (1 + (successCountFor fid (pgBookRepoCreate db b t0 fid).2 ops : Int)) := by
  have h1 : bookVersion (pgBookRepoCreate db b t0 fid).2 fid = some 1 := by
    unfold pgBookRepoCreate bookVersion
    rw [List.find?_append]
    have hnone : db.find? (fun x => x.id == fid) = none :=
      List.find?_eq_none.mpr (fun x hx => by simp [hfresh x hx])
    rw [hnone]
    simp
  exact ⟨h1, runUpdateOps_version ops _ fid 1 h1⟩

/-- Witness for C2: create a book, update it twice and fail one update on a
missing id — the stored version is 3 = 2 successes + 1. -/
theorem version_eq_successes_plus_one_witness :
    bookVersion (pgBookRepoCreate []
        { id := "", title := "T", author := "A", publishedYear := none,
          isbn := none, createdAt := 0, updatedAt := 0, version := 0 } 1 "b1").2 "b1"
      = some 1 ∧
    bookVersion (runUpdateOps (pgBookRepoCreate []
        { id := "", title := "T", author := "A", publishedYear := none,
          isbn := none, createdAt := 0, updatedAt := 0, version := 0 } 1 "b1").2
        [{ id := "b1", updates := { title := some "T2", author := some "A" }, now := 2 },
         { id := "zz", updates := { title := some "X", author := some "Y" }, now := 3 },
         { id := "b1", updates := { title := some "T2", author := some "A2" }, now := 4 }]) "b1"
      = some (1 + (successCountFor "b1" (pgBookRepoCreate []
          { id := "", title := "T", author := "A", publishedYear := none,
            isbn := none, createdAt := 0, updatedAt := 0, version := 0 } 1 "b1").2
          [{ id := "b1", updates := { title := some "T2", author := some "A" }, now := 2 },
           { id := "zz", updates := { title := some "X", author := some "Y" }, now := 3 },
           { id := "b1", updates := { title := some "T2", author := some "A2" }, now := 4 }] : Int)) :=
  version_eq_successes_plus_one []
    { id := "", title := "T", author := "A", publishedYear := none,
      isbn := none, createdAt := 0, updatedAt := 0, version := 0 } 1 "b1"
    [{ id := "b1", updates := { title := some "T2", author := some "A" }, now := 2 },
     { id := "zz", updates := { title := some "X", author := some "Y" }, now := 3 },
     { id := "b1", updates := { title := some "T2", author := some "A2" }, now := 4 }]
    (by simp)
